import Mathlib

/-!
# Verification of the typed debug-draw façade (`RenderDebugTyped.h`)

This development embeds the `RENDER_DEBUG::RenderDebugTyped` interface of
`shared/general/RenderDebug/public/RenderDebugTyped.h` and the behavioural
contract its documentation states.  The header declares only pure-virtual
methods; the implementation lives outside the provided sources, so the
behavioural model below is derived from the documented contract of each
method (each such definition is marked `Modelled from the spec:`), while the
declaration-level facts (method signatures, return types, using-declarations,
destructor access) are embedded directly from the header.

Float components are modelled as rationals (the façade performs no float
arithmetic on draw arguments: it passes them through), packed 32-bit ARGB
colors as naturals, and C++ `int32_t` draw-group identifiers as integers.
-/

namespace RENDER_DEBUG

/-- 3d vector (`physx::PxVec3`): three float components. -/
structure PxVec3 where
  x : ℚ
  y : ℚ
  z : ℚ
deriving DecidableEq, Repr

/-- 2d vector (`physx::PxVec2`). -/
structure PxVec2 where
  x : ℚ
  y : ℚ
deriving DecidableEq, Repr

/-- Quaternion (`physx::PxQuat`), XYZW layout. -/
structure PxQuat where
  x : ℚ
  y : ℚ
  z : ℚ
  w : ℚ
deriving DecidableEq, Repr

/-- Plane equation (`physx::PxPlane`): unit normal `n` and distance `d`. -/
structure PxPlane where
  n : PxVec3
  d : ℚ
deriving DecidableEq, Repr

/-- Axis-aligned bounding box (`physx::PxBounds3`). -/
structure PxBounds3 where
  minimum : PxVec3
  maximum : PxVec3
deriving DecidableEq, Repr

/-- 4x4 matrix (`physx::PxMat44`); `mij` is the entry in row `i`, column `j`
(translation lives in column 3). -/
structure PxMat44 where
  m00 : ℚ
  m01 : ℚ
  m02 : ℚ
  m03 : ℚ
  m10 : ℚ
  m11 : ℚ
  m12 : ℚ
  m13 : ℚ
  m20 : ℚ
  m21 : ℚ
  m22 : ℚ
  m23 : ℚ
  m30 : ℚ
  m31 : ℚ
  m32 : ℚ
  m33 : ℚ
deriving DecidableEq, Repr

/-- 3x3 rotation matrix (`physx::PxMat33`). -/
structure PxMat33 where
  m00 : ℚ
  m01 : ℚ
  m02 : ℚ
  m10 : ℚ
  m11 : ℚ
  m12 : ℚ
  m20 : ℚ
  m21 : ℚ
  m22 : ℚ
deriving DecidableEq, Repr

/-- Rigid transform (`physx::PxTransform`): quaternion rotation and position. -/
structure PxTransform where
  q : PxQuat
  p : PxVec3
deriving DecidableEq, Repr

/-- Standard row-by-column product of two 4x4 matrices (`PxMat44` product). -/
def PxMat44.mul (a b : PxMat44) : PxMat44 where
  m00 := a.m00 * b.m00 + a.m01 * b.m10 + a.m02 * b.m20 + a.m03 * b.m30
  m01 := a.m00 * b.m01 + a.m01 * b.m11 + a.m02 * b.m21 + a.m03 * b.m31
  m02 := a.m00 * b.m02 + a.m01 * b.m12 + a.m02 * b.m22 + a.m03 * b.m32
  m03 := a.m00 * b.m03 + a.m01 * b.m13 + a.m02 * b.m23 + a.m03 * b.m33
  m10 := a.m10 * b.m00 + a.m11 * b.m10 + a.m12 * b.m20 + a.m13 * b.m30
  m11 := a.m10 * b.m01 + a.m11 * b.m11 + a.m12 * b.m21 + a.m13 * b.m31
  m12 := a.m10 * b.m02 + a.m11 * b.m12 + a.m12 * b.m22 + a.m13 * b.m32
  m13 := a.m10 * b.m03 + a.m11 * b.m13 + a.m12 * b.m23 + a.m13 * b.m33
  m20 := a.m20 * b.m00 + a.m21 * b.m10 + a.m22 * b.m20 + a.m23 * b.m30
  m21 := a.m20 * b.m01 + a.m21 * b.m11 + a.m22 * b.m21 + a.m23 * b.m31
  m22 := a.m20 * b.m02 + a.m21 * b.m12 + a.m22 * b.m22 + a.m23 * b.m32
  m23 := a.m20 * b.m03 + a.m21 * b.m13 + a.m22 * b.m23 + a.m23 * b.m33
  m30 := a.m30 * b.m00 + a.m31 * b.m10 + a.m32 * b.m20 + a.m33 * b.m30
  m31 := a.m30 * b.m01 + a.m31 * b.m11 + a.m32 * b.m21 + a.m33 * b.m31
  m32 := a.m30 * b.m02 + a.m31 * b.m12 + a.m32 * b.m22 + a.m33 * b.m32
  m33 := a.m30 * b.m03 + a.m31 * b.m13 + a.m32 * b.m23 + a.m33 * b.m33

/-- The 4x4 identity matrix. -/
def PxMat44.identity : PxMat44 where
  m00 := 1
  m01 := 0
  m02 := 0
  m03 := 0
  m10 := 0
  m11 := 1
  m12 := 0
  m13 := 0
  m20 := 0
  m21 := 0
  m22 := 1
  m23 := 0
  m30 := 0
  m31 := 0
  m32 := 0
  m33 := 1

/-- Translation component of a 4x4 pose matrix (column 3). -/
def PxMat44.translation (m : PxMat44) : PxVec3 :=
  ⟨m.m03, m.m13, m.m23⟩

/-- Rotation block of a 4x4 pose matrix (upper-left 3x3). -/
def PxMat44.rotationBlock (m : PxMat44) : PxMat33 :=
  ⟨m.m00, m.m01, m.m02, m.m10, m.m11, m.m12, m.m20, m.m21, m.m22⟩

/-- The standard rotation matrix of a quaternion (as in `PxMat33(PxQuat)`). -/
def quatToMat33 (q : PxQuat) : PxMat33 where
  m00 := 1 - 2 * (q.y * q.y + q.z * q.z)
  m01 := 2 * (q.x * q.y - q.w * q.z)
  m02 := 2 * (q.x * q.z + q.w * q.y)
  m10 := 2 * (q.x * q.y + q.w * q.z)
  m11 := 1 - 2 * (q.x * q.x + q.z * q.z)
  m12 := 2 * (q.y * q.z - q.w * q.x)
  m20 := 2 * (q.x * q.z - q.w * q.y)
  m21 := 2 * (q.y * q.z + q.w * q.x)
  m22 := 1 - 2 * (q.x * q.x + q.y * q.y)

/-- Write a rotation block into a 4x4 matrix, leaving the translation column
and the bottom row untouched. -/
def PxMat44.withRotation (m : PxMat44) (r : PxMat33) : PxMat44 :=
  { m with
    m00 := r.m00, m01 := r.m01, m02 := r.m02
    m10 := r.m10, m11 := r.m11, m12 := r.m12
    m20 := r.m20, m21 := r.m21, m22 := r.m22 }

/-- Write a translation column into a 4x4 matrix, leaving everything else
untouched. -/
def PxMat44.withTranslation (m : PxMat44) (p : PxVec3) : PxMat44 :=
  { m with m03 := p.x, m13 := p.y, m23 := p.z }

/-- The 4x4 matrix of a rigid transform: rotation block from the quaternion,
translation from the position, last row `0 0 0 1`. -/
def PxTransform.toMat44 (t : PxTransform) : PxMat44 :=
  (PxMat44.identity.withRotation (quatToMat33 t.q)).withTranslation t.p

/-- Raw 3-float triple, the representation the untyped base interface
(`RenderDebug`) accepts (`const float p[3]`). -/
abbrev Raw3 := ℚ × ℚ × ℚ

/-- Raw 4-float quadruple (plane equation, quaternion as floats). -/
abbrev Raw4 := ℚ × ℚ × ℚ × ℚ

/-- Lossless flattening of a typed vector to the raw float triple the base
interface accepts. -/
def PxVec3.toRaw (v : PxVec3) : Raw3 := (v.x, v.y, v.z)

/-- Lossless flattening of a plane equation to four raw floats. -/
def PxPlane.toRaw (p : PxPlane) : Raw4 := (p.n.x, p.n.y, p.n.z, p.d)

/-- Lossless flattening of a 4x4 matrix to the 16 raw floats of its
column-major memory layout (`const float m[16]`). -/
def PxMat44.toRaw (m : PxMat44) : List ℚ :=
  [m.m00, m.m10, m.m20, m.m30,
   m.m01, m.m11, m.m21, m.m31,
   m.m02, m.m12, m.m22, m.m32,
   m.m03, m.m13, m.m23, m.m33]

/-- Render mode for `debugAxes` (`DebugAxesRenderMode::Enum`); the solid mode
is the documented default. -/
inductive DebugAxesRenderMode where
  | debugAxesRenderSolid
  | debugAxesRenderWireframe
deriving DecidableEq, Repr

/-- Modelled from the spec: a call forwarded to the underlying untyped
drawing implementation (the `RenderDebug` base interface is not among the
provided sources; its operations "accept raw float components", so each
forwarded call carries only raw numeric content).  Variadic `debugText`
formatting is performed at the call boundary, yielding a plain string. -/
inductive FwdCall where
  | polygon (pcount : ℕ) (points : List Raw3)
  | line (p1 p2 : Raw3)
  | gradientLine (p1 p2 : Raw3) (c1 c2 : ℕ)
  | ray (p1 p2 : Raw3)
  | cylinder (p1 p2 : Raw3) (radius : ℚ)
  | thickRay (p1 p2 : Raw3) (raySize : ℚ) (arrowTip : Bool)
  | plane (eqn : Raw4) (radius1 radius2 : ℚ)
  | tri (p1 p2 p3 : Raw3)
  | triNormals (p1 p2 p3 n1 n2 n3 : Raw3)
  | gradientTri (p1 p2 p3 : Raw3) (c1 c2 c3 : ℕ)
  | gradientTriNormals (p1 p2 p3 n1 n2 n3 : Raw3) (c1 c2 c3 : ℕ)
  | bound (bmin bmax : Raw3)
  | sphere (pos : Raw3) (radius : ℚ) (subdivision : ℕ)
  | circle (center : Raw3) (radius : ℚ) (subdivision : ℕ)
  | pointRadius (pos : Raw3) (radius : ℚ)
  | pointScale (pos scale : Raw3)
  | quad (pos : Raw3) (scaleX scaleY orientation : ℚ)
  | axes (transform : List ℚ) (distance brightness : ℚ)
      (showXYZ showRotation : Bool) (axisSwitch : ℕ)
      (renderMode : DebugAxesRenderMode)
  | arc (center p1 p2 : Raw3) (arrowSize : ℚ) (showRoot : Bool)
  | thickArc (center p1 p2 : Raw3) (thickness : ℚ) (showRoot : Bool)
  | text (pos : Raw3) (str : String)
  | frustum (viewMatrix projMatrix : List ℚ)
deriving DecidableEq, Repr

/-- Modelled from the spec: the state owned by the façade/implementation pair
(the implementation behind the pure-virtual interface is not among the
provided sources).  It holds the last-set view and projection matrices, their
product (recomputed whenever either input changes), the current global pose,
the registered draw groups with their anchor poses, the allocation counter
for draw-group identifiers, and the stream of draw commands forwarded to the
underlying implementation — the only content transmitted to the remote
rendering server. -/
structure DebugState where
  viewMatrix : PxMat44
  projectionMatrix : PxMat44
  viewProjectionMatrix : PxMat44
  pose : PxMat44
  drawGroups : ℤ → Option PxMat44
  nextGroupId : ℕ
  drawCommands : List FwdCall

/-- The initial façade state: identity matrices, identity pose, no draw
groups, no pending draw commands. -/
def DebugState.init : DebugState where
  viewMatrix := PxMat44.identity
  projectionMatrix := PxMat44.identity
  viewProjectionMatrix := PxMat44.identity.mul PxMat44.identity
  pose := PxMat44.identity
  drawGroups := fun _ => none
  nextGroupId := 0
  drawCommands := []

/-- Append one forwarded draw command to the state's command stream. -/
def DebugState.emit (s : DebugState) (c : FwdCall) : DebugState :=
  { s with drawCommands := s.drawCommands ++ [c] }

namespace RenderDebugTyped

/-- Modelled from the spec: `setViewMatrix` stores the view matrix for local
use and the combined view*projection matrix is recomputed whenever either
input changes. -/
def setViewMatrix (s : DebugState) (view : PxMat44) : DebugState :=
  { s with
    viewMatrix := view
    viewProjectionMatrix := view.mul s.projectionMatrix }

/-- Modelled from the spec: `setProjectionMatrix` stores the projection
matrix for local use and recomputes the combined view*projection matrix. -/
def setProjectionMatrix (s : DebugState) (projection : PxMat44) : DebugState :=
  { s with
    projectionMatrix := projection
    viewProjectionMatrix := s.viewMatrix.mul projection }

/-- Modelled from the spec: `getViewProjectionMatrixTyped` returns the stored
current view*projection matrix. -/
def getViewProjectionMatrixTyped (s : DebugState) : PxMat44 :=
  s.viewProjectionMatrix

/-- Modelled from the spec: `getViewMatrixTyped` returns the currently set
view matrix. -/
def getViewMatrixTyped (s : DebugState) : PxMat44 :=
  s.viewMatrix

/-- Modelled from the spec: `getProjectionMatrixTyped` returns the currently
set projection matrix. -/
def getProjectionMatrixTyped (s : DebugState) : PxMat44 :=
  s.projectionMatrix

/-- Modelled from the spec: `setPose` (matrix overload) sets the global pose
wholesale. -/
def setPose (s : DebugState) (pose : PxMat44) : DebugState :=
  { s with pose := pose }

/-- Modelled from the spec: `setPose` (transform overload) sets the global
pose from a position and quaternion rotation. -/
def setPoseTransform (s : DebugState) (pose : PxTransform) : DebugState :=
  { s with pose := pose.toMat44 }

/-- Modelled from the spec: `setPosition` sets the global pose position only
and does not change the rotation. -/
def setPosition (s : DebugState) (position : PxVec3) : DebugState :=
  { s with pose := s.pose.withTranslation position }

/-- Modelled from the spec: `setOrientation` sets the global pose orientation
only and does not change the position. -/
def setOrientation (s : DebugState) (rot : PxQuat) : DebugState :=
  { s with pose := s.pose.withRotation (quatToMat33 rot) }

/-- Modelled from the spec: `getPoseTyped` returns the current global pose. -/
def getPoseTyped (s : DebugState) : PxMat44 :=
  s.pose

/-- Modelled from the spec: `beginDrawGroup` registers a new draw group
anchored at the given base pose and returns its identifier, allocated from a
counter (implementation-defined allocation policy; the spec requires a
non-negative identifier). -/
def beginDrawGroup (s : DebugState) (pose : PxMat44) : DebugState × ℤ :=
  let gid : ℤ := Int.ofNat s.nextGroupId
  ({ s with
      drawGroups := fun i => if i = gid then some pose else s.drawGroups i
      nextGroupId := s.nextGroupId + 1 },
   gid)

/-- Modelled from the spec: `setDrawGroupPose` revises the anchor pose of the
draw group with the given identifier (behaviour on an unknown identifier is
implementation-defined). -/
def setDrawGroupPose (s : DebugState) (blockId : ℤ) (pose : PxMat44) : DebugState :=
  { s with drawGroups := fun i => if i = blockId then some pose else s.drawGroups i }

/-- Anchor pose currently registered for a draw-group identifier. -/
def getDrawGroupPose (s : DebugState) (blockId : ℤ) : Option PxMat44 :=
  s.drawGroups blockId

/-- Modelled from the spec: typed `debugPolygon` — converts each `PxVec3`
boundary point and forwards the polygon draw. -/
def debugPolygon (s : DebugState) (pcount : ℕ) (points : List PxVec3) : DebugState :=
  s.emit (.polygon pcount (points.map PxVec3.toRaw))

/-- Modelled from the spec: typed `debugLine` forwards a line draw. -/
def debugLine (s : DebugState) (p1 p2 : PxVec3) : DebugState :=
  s.emit (.line p1.toRaw p2.toRaw)

/-- Modelled from the spec: typed `debugGradientLine` forwards a gradient
line draw with per-endpoint packed ARGB colors. -/
def debugGradientLine (s : DebugState) (p1 p2 : PxVec3) (c1 c2 : ℕ) : DebugState :=
  s.emit (.gradientLine p1.toRaw p2.toRaw c1 c2)

/-- Modelled from the spec: typed `debugRay` forwards a ray draw. -/
def debugRay (s : DebugState) (p1 p2 : PxVec3) : DebugState :=
  s.emit (.ray p1.toRaw p2.toRaw)

/-- Modelled from the spec: typed `debugCylinder` forwards a cylinder draw. -/
def debugCylinder (s : DebugState) (p1 p2 : PxVec3) (radius : ℚ) : DebugState :=
  s.emit (.cylinder p1.toRaw p2.toRaw radius)

/-- Modelled from the spec: typed `debugThickRay` forwards a thick-ray draw. -/
def debugThickRay (s : DebugState) (p1 p2 : PxVec3) (raySize : ℚ) (arrowTip : Bool) :
    DebugState :=
  s.emit (.thickRay p1.toRaw p2.toRaw raySize arrowTip)

/-- Modelled from the spec: typed `debugPlane` forwards a plane draw. -/
def debugPlane (s : DebugState) (plane : PxPlane) (radius1 radius2 : ℚ) : DebugState :=
  s.emit (.plane plane.toRaw radius1 radius2)

/-- Modelled from the spec: typed `debugTri` forwards a triangle draw. -/
def debugTri (s : DebugState) (p1 p2 p3 : PxVec3) : DebugState :=
  s.emit (.tri p1.toRaw p2.toRaw p3.toRaw)

/-- Modelled from the spec: typed `debugTriNormals` forwards a triangle draw
with vertex normals. -/
def debugTriNormals (s : DebugState) (p1 p2 p3 n1 n2 n3 : PxVec3) : DebugState :=
  s.emit (.triNormals p1.toRaw p2.toRaw p3.toRaw n1.toRaw n2.toRaw n3.toRaw)

/-- Modelled from the spec: typed `debugGradientTri` forwards a triangle draw
with per-vertex colors. -/
def debugGradientTri (s : DebugState) (p1 p2 p3 : PxVec3) (c1 c2 c3 : ℕ) : DebugState :=
  s.emit (.gradientTri p1.toRaw p2.toRaw p3.toRaw c1 c2 c3)

/-- Modelled from the spec: typed `debugGradientTriNormals` forwards a
triangle draw with per-vertex normals and colors. -/
def debugGradientTriNormals (s : DebugState) (p1 p2 p3 n1 n2 n3 : PxVec3)
    (c1 c2 c3 : ℕ) : DebugState :=
  s.emit (.gradientTriNormals p1.toRaw p2.toRaw p3.toRaw n1.toRaw n2.toRaw n3.toRaw c1 c2 c3)

/-- Modelled from the spec: typed `debugBound` forwards a bounding-box draw. -/
def debugBound (s : DebugState) (bounds : PxBounds3) : DebugState :=
  s.emit (.bound bounds.minimum.toRaw bounds.maximum.toRaw)

/-- Modelled from the spec: typed `debugSphere` forwards a sphere draw. -/
def debugSphere (s : DebugState) (pos : PxVec3) (radius : ℚ) (subdivision : ℕ) :
    DebugState :=
  s.emit (.sphere pos.toRaw radius subdivision)

/-- Modelled from the spec: typed `debugCircle` forwards a circle draw. -/
def debugCircle (s : DebugState) (center : PxVec3) (radius : ℚ) (subdivision : ℕ) :
    DebugState :=
  s.emit (.circle center.toRaw radius subdivision)

/-- Modelled from the spec: typed `debugPoint` (uniform-radius overload)
forwards a point draw. -/
def debugPoint (s : DebugState) (pos : PxVec3) (radius : ℚ) : DebugState :=
  s.emit (.pointRadius pos.toRaw radius)

/-- Modelled from the spec: typed `debugPoint` (per-axis `PxVec3` scale
overload) forwards a point draw with independent X/Y/Z scale. -/
def debugPointScale (s : DebugState) (pos : PxVec3) (scale : PxVec3) : DebugState :=
  s.emit (.pointScale pos.toRaw scale.toRaw)

/-- Modelled from the spec: typed `debugQuad` forwards a screen-space quad
draw. -/
def debugQuad (s : DebugState) (pos : PxVec3) (scale : PxVec2) (orientation : ℚ) :
    DebugState :=
  s.emit (.quad pos.toRaw scale.x scale.y orientation)

/-- Modelled from the spec: typed `debugAxes` forwards a transform-axes
visualization. -/
def debugAxes (s : DebugState) (transform : PxMat44) (distance brightness : ℚ)
    (showXYZ showRotation : Bool) (axisSwitch : ℕ)
    (renderMode : DebugAxesRenderMode) : DebugState :=
  s.emit (.axes transform.toRaw distance brightness showXYZ showRotation axisSwitch renderMode)

/-- Modelled from the spec: typed `debugArc` forwards an arc draw. -/
def debugArc (s : DebugState) (center p1 p2 : PxVec3) (arrowSize : ℚ)
    (showRoot : Bool) : DebugState :=
  s.emit (.arc center.toRaw p1.toRaw p2.toRaw arrowSize showRoot)

/-- Modelled from the spec: typed `debugThickArc` forwards a thick-arc draw. -/
def debugThickArc (s : DebugState) (center p1 p2 : PxVec3) (thickness : ℚ)
    (showRoot : Bool) : DebugState :=
  s.emit (.thickArc center.toRaw p1.toRaw p2.toRaw thickness showRoot)

/-- Modelled from the spec: typed `debugText` — the printf-style arguments are
formatted at the call boundary into a plain string, which is forwarded with
the converted position. -/
def debugText (s : DebugState) (pos : PxVec3) (str : String) : DebugState :=
  s.emit (.text pos.toRaw str)

/-- Modelled from the spec: typed `debugFrustum` forwards a frustum draw for
the given view and projection matrices (caller-supplied arguments, not the
stored state). -/
def debugFrustum (s : DebugState) (viewMatrix projMatrix : PxMat44) : DebugState :=
  s.emit (.frustum viewMatrix.toRaw projMatrix.toRaw)

end RenderDebugTyped

namespace RenderDebug

/-- Modelled from the spec: untyped base `debugPolygon` over raw float
triples. -/
def debugPolygon (s : DebugState) (pcount : ℕ) (points : List Raw3) : DebugState :=
  s.emit (.polygon pcount points)

/-- Modelled from the spec: untyped base `debugLine` over raw floats. -/
def debugLine (s : DebugState) (p1 p2 : Raw3) : DebugState :=
  s.emit (.line p1 p2)

/-- Modelled from the spec: untyped base `debugGradientLine` over raw floats. -/
def debugGradientLine (s : DebugState) (p1 p2 : Raw3) (c1 c2 : ℕ) : DebugState :=
  s.emit (.gradientLine p1 p2 c1 c2)

/-- Modelled from the spec: untyped base `debugRay` over raw floats. -/
def debugRay (s : DebugState) (p1 p2 : Raw3) : DebugState :=
  s.emit (.ray p1 p2)

/-- Modelled from the spec: untyped base `debugCylinder` over raw floats. -/
def debugCylinder (s : DebugState) (p1 p2 : Raw3) (radius : ℚ) : DebugState :=
  s.emit (.cylinder p1 p2 radius)

/-- Modelled from the spec: untyped base `debugThickRay` over raw floats. -/
def debugThickRay (s : DebugState) (p1 p2 : Raw3) (raySize : ℚ) (arrowTip : Bool) :
    DebugState :=
  s.emit (.thickRay p1 p2 raySize arrowTip)

/-- Modelled from the spec: untyped base `debugPlane` over a raw plane
equation. -/
def debugPlane (s : DebugState) (eqn : Raw4) (radius1 radius2 : ℚ) : DebugState :=
  s.emit (.plane eqn radius1 radius2)

/-- Modelled from the spec: untyped base `debugTri` over raw floats. -/
def debugTri (s : DebugState) (p1 p2 p3 : Raw3) : DebugState :=
  s.emit (.tri p1 p2 p3)

/-- Modelled from the spec: untyped base `debugTriNormals` over raw floats. -/
def debugTriNormals (s : DebugState) (p1 p2 p3 n1 n2 n3 : Raw3) : DebugState :=
  s.emit (.triNormals p1 p2 p3 n1 n2 n3)

/-- Modelled from the spec: untyped base `debugGradientTri` over raw floats. -/
def debugGradientTri (s : DebugState) (p1 p2 p3 : Raw3) (c1 c2 c3 : ℕ) : DebugState :=
  s.emit (.gradientTri p1 p2 p3 c1 c2 c3)

/-- Modelled from the spec: untyped base `debugGradientTriNormals` over raw
floats. -/
def debugGradientTriNormals (s : DebugState) (p1 p2 p3 n1 n2 n3 : Raw3)
    (c1 c2 c3 : ℕ) : DebugState :=
  s.emit (.gradientTriNormals p1 p2 p3 n1 n2 n3 c1 c2 c3)

/-- Modelled from the spec: untyped base `debugBound` over raw min/max
corners. -/
def debugBound (s : DebugState) (bmin bmax : Raw3) : DebugState :=
  s.emit (.bound bmin bmax)

/-- Modelled from the spec: untyped base `debugSphere` over raw floats. -/
def debugSphere (s : DebugState) (pos : Raw3) (radius : ℚ) (subdivision : ℕ) :
    DebugState :=
  s.emit (.sphere pos radius subdivision)

/-- Modelled from the spec: untyped base `debugCircle` over raw floats. -/
def debugCircle (s : DebugState) (center : Raw3) (radius : ℚ) (subdivision : ℕ) :
    DebugState :=
  s.emit (.circle center radius subdivision)

/-- Modelled from the spec: untyped base `debugPoint` (uniform radius) over
raw floats. -/
def debugPoint (s : DebugState) (pos : Raw3) (radius : ℚ) : DebugState :=
  s.emit (.pointRadius pos radius)

/-- Modelled from the spec: untyped base `debugPoint` (per-axis scale) over
raw floats. -/
def debugPointScale (s : DebugState) (pos scale : Raw3) : DebugState :=
  s.emit (.pointScale pos scale)

/-- Modelled from the spec: untyped base `debugQuad` over raw floats. -/
def debugQuad (s : DebugState) (pos : Raw3) (scaleX scaleY orientation : ℚ) :
    DebugState :=
  s.emit (.quad pos scaleX scaleY orientation)

/-- Modelled from the spec: untyped base `debugAxes` over a raw 16-float
matrix. -/
def debugAxes (s : DebugState) (transform : List ℚ) (distance brightness : ℚ)
    (showXYZ showRotation : Bool) (axisSwitch : ℕ)
    (renderMode : DebugAxesRenderMode) : DebugState :=
  s.emit (.axes transform distance brightness showXYZ showRotation axisSwitch renderMode)

/-- Modelled from the spec: untyped base `debugArc` over raw floats. -/
def debugArc (s : DebugState) (center p1 p2 : Raw3) (arrowSize : ℚ)
    (showRoot : Bool) : DebugState :=
  s.emit (.arc center p1 p2 arrowSize showRoot)

/-- Modelled from the spec: untyped base `debugThickArc` over raw floats. -/
def debugThickArc (s : DebugState) (center p1 p2 : Raw3) (thickness : ℚ)
    (showRoot : Bool) : DebugState :=
  s.emit (.thickArc center p1 p2 thickness showRoot)

/-- Modelled from the spec: untyped base `debugText` over a raw position and
an already-formatted string. -/
def debugText (s : DebugState) (pos : Raw3) (str : String) : DebugState :=
  s.emit (.text pos str)

/-- Modelled from the spec: untyped base `debugFrustum` over raw 16-float
matrices. -/
def debugFrustum (s : DebugState) (viewMatrix projMatrix : List ℚ) : DebugState :=
  s.emit (.frustum viewMatrix projMatrix)

end RenderDebug

/-- One invocation of a `RenderDebugTyped` operation, with its typed
arguments.  `eulerToQuat` and `rotationArc` are documented pure conversion
helpers writing only to caller-owned out-parameters, so they carry no state
effect; the read accessors are not listed since they take no arguments and
mutate nothing. -/
inductive Op where
  | debugPolygon (pcount : ℕ) (points : List PxVec3)
  | debugLine (p1 p2 : PxVec3)
  | debugGradientLine (p1 p2 : PxVec3) (c1 c2 : ℕ)
  | debugRay (p1 p2 : PxVec3)
  | debugCylinder (p1 p2 : PxVec3) (radius : ℚ)
  | debugThickRay (p1 p2 : PxVec3) (raySize : ℚ) (arrowTip : Bool)
  | debugPlane (plane : PxPlane) (radius1 radius2 : ℚ)
  | debugTri (p1 p2 p3 : PxVec3)
  | debugTriNormals (p1 p2 p3 n1 n2 n3 : PxVec3)
  | debugGradientTri (p1 p2 p3 : PxVec3) (c1 c2 c3 : ℕ)
  | debugGradientTriNormals (p1 p2 p3 n1 n2 n3 : PxVec3) (c1 c2 c3 : ℕ)
  | debugBound (bounds : PxBounds3)
  | debugSphere (pos : PxVec3) (radius : ℚ) (subdivision : ℕ)
  | debugCircle (center : PxVec3) (radius : ℚ) (subdivision : ℕ)
  | debugPoint (pos : PxVec3) (radius : ℚ)
  | debugPointScale (pos scale : PxVec3)
  | debugQuad (pos : PxVec3) (scale : PxVec2) (orientation : ℚ)
  | debugAxes (transform : PxMat44) (distance brightness : ℚ)
      (showXYZ showRotation : Bool) (axisSwitch : ℕ)
      (renderMode : DebugAxesRenderMode)
  | debugArc (center p1 p2 : PxVec3) (arrowSize : ℚ) (showRoot : Bool)
  | debugThickArc (center p1 p2 : PxVec3) (thickness : ℚ) (showRoot : Bool)
  | debugText (pos : PxVec3) (str : String)
  | debugFrustum (viewMatrix projMatrix : PxMat44)
  | setViewMatrix (view : PxMat44)
  | setProjectionMatrix (projection : PxMat44)
  | eulerToQuat (angles : PxVec3)
  | rotationArc (p0 p1 : PxVec3)
  | beginDrawGroup (pose : PxMat44)
  | setDrawGroupPose (blockId : ℤ) (pose : PxMat44)
  | setPose (pose : PxMat44)
  | setPoseTransform (pose : PxTransform)
  | setPosition (position : PxVec3)
  | setOrientation (rot : PxQuat)

/-- State effect of one operation of the typed façade. -/
def step (s : DebugState) : Op → DebugState
  | .debugPolygon n pts => RenderDebugTyped.debugPolygon s n pts
  | .debugLine p1 p2 => RenderDebugTyped.debugLine s p1 p2
  | .debugGradientLine p1 p2 c1 c2 => RenderDebugTyped.debugGradientLine s p1 p2 c1 c2
  | .debugRay p1 p2 => RenderDebugTyped.debugRay s p1 p2
  | .debugCylinder p1 p2 r => RenderDebugTyped.debugCylinder s p1 p2 r
  | .debugThickRay p1 p2 rs tip => RenderDebugTyped.debugThickRay s p1 p2 rs tip
  | .debugPlane pl r1 r2 => RenderDebugTyped.debugPlane s pl r1 r2
  | .debugTri p1 p2 p3 => RenderDebugTyped.debugTri s p1 p2 p3
  | .debugTriNormals p1 p2 p3 n1 n2 n3 => RenderDebugTyped.debugTriNormals s p1 p2 p3 n1 n2 n3
  | .debugGradientTri p1 p2 p3 c1 c2 c3 => RenderDebugTyped.debugGradientTri s p1 p2 p3 c1 c2 c3
  | .debugGradientTriNormals p1 p2 p3 n1 n2 n3 c1 c2 c3 =>
      RenderDebugTyped.debugGradientTriNormals s p1 p2 p3 n1 n2 n3 c1 c2 c3
  | .debugBound b => RenderDebugTyped.debugBound s b
  | .debugSphere p r sub => RenderDebugTyped.debugSphere s p r sub
  | .debugCircle c r sub => RenderDebugTyped.debugCircle s c r sub
  | .debugPoint p r => RenderDebugTyped.debugPoint s p r
  | .debugPointScale p sc => RenderDebugTyped.debugPointScale s p sc
  | .debugQuad p sc o => RenderDebugTyped.debugQuad s p sc o
  | .debugAxes t d b x r a m => RenderDebugTyped.debugAxes s t d b x r a m
  | .debugArc c p1 p2 a root => RenderDebugTyped.debugArc s c p1 p2 a root
  | .debugThickArc c p1 p2 th root => RenderDebugTyped.debugThickArc s c p1 p2 th root
  | .debugText p str => RenderDebugTyped.debugText s p str
  | .debugFrustum v p => RenderDebugTyped.debugFrustum s v p
  | .setViewMatrix v => RenderDebugTyped.setViewMatrix s v
  | .setProjectionMatrix p => RenderDebugTyped.setProjectionMatrix s p
  | .eulerToQuat _ => s
  | .rotationArc _ _ => s
  | .beginDrawGroup pose => (RenderDebugTyped.beginDrawGroup s pose).1
  | .setDrawGroupPose gid pose => RenderDebugTyped.setDrawGroupPose s gid pose
  | .setPose pose => RenderDebugTyped.setPose s pose
  | .setPoseTransform pose => RenderDebugTyped.setPoseTransform s pose
  | .setPosition p => RenderDebugTyped.setPosition s p
  | .setOrientation q => RenderDebugTyped.setOrientation s q

/-- The forwarded draw command of an operation, when the operation is one of
the primitive-drawing operations (`none` for the state setters and pure
helpers). -/
def fwdOf : Op → Option FwdCall
  | .debugPolygon n pts => some (.polygon n (pts.map PxVec3.toRaw))
  | .debugLine p1 p2 => some (.line p1.toRaw p2.toRaw)
  | .debugGradientLine p1 p2 c1 c2 => some (.gradientLine p1.toRaw p2.toRaw c1 c2)
  | .debugRay p1 p2 => some (.ray p1.toRaw p2.toRaw)
  | .debugCylinder p1 p2 r => some (.cylinder p1.toRaw p2.toRaw r)
  | .debugThickRay p1 p2 rs tip => some (.thickRay p1.toRaw p2.toRaw rs tip)
  | .debugPlane pl r1 r2 => some (.plane pl.toRaw r1 r2)
  | .debugTri p1 p2 p3 => some (.tri p1.toRaw p2.toRaw p3.toRaw)
  | .debugTriNormals p1 p2 p3 n1 n2 n3 =>
      some (.triNormals p1.toRaw p2.toRaw p3.toRaw n1.toRaw n2.toRaw n3.toRaw)
  | .debugGradientTri p1 p2 p3 c1 c2 c3 =>
      some (.gradientTri p1.toRaw p2.toRaw p3.toRaw c1 c2 c3)
  | .debugGradientTriNormals p1 p2 p3 n1 n2 n3 c1 c2 c3 =>
      some (.gradientTriNormals p1.toRaw p2.toRaw p3.toRaw n1.toRaw n2.toRaw n3.toRaw c1 c2 c3)
  | .debugBound b => some (.bound b.minimum.toRaw b.maximum.toRaw)
  | .debugSphere p r sub => some (.sphere p.toRaw r sub)
  | .debugCircle c r sub => some (.circle c.toRaw r sub)
  | .debugPoint p r => some (.pointRadius p.toRaw r)
  | .debugPointScale p sc => some (.pointScale p.toRaw sc.toRaw)
  | .debugQuad p sc o => some (.quad p.toRaw sc.x sc.y o)
  | .debugAxes t d b x r a m => some (.axes t.toRaw d b x r a m)
  | .debugArc c p1 p2 a root => some (.arc c.toRaw p1.toRaw p2.toRaw a root)
  | .debugThickArc c p1 p2 th root => some (.thickArc c.toRaw p1.toRaw p2.toRaw th root)
  | .debugText p str => some (.text p.toRaw str)
  | .debugFrustum v p => some (.frustum v.toRaw p.toRaw)
  | .setViewMatrix _ => none
  | .setProjectionMatrix _ => none
  | .eulerToQuat _ => none
  | .rotationArc _ _ => none
  | .beginDrawGroup _ => none
  | .setDrawGroupPose _ _ => none
  | .setPose _ => none
  | .setPoseTransform _ => none
  | .setPosition _ => none
  | .setOrientation _ => none

/-- Run a sequence of operations from a starting state. -/
def run (s : DebugState) (ops : List Op) : DebugState :=
  ops.foldl step s

/-- Modelled from the spec: the content transmitted to the remote rendering
server is the forwarded draw-command stream; the view/projection matrix state
is documented as local-only and is not part of it. -/
def remoteOutput (s : DebugState) : List FwdCall :=
  s.drawCommands

/-- Two façade states that agree on everything except the local-only view,
projection, and combined view-projection matrices. -/
def viewProjAgnosticEq (s1 s2 : DebugState) : Prop :=
  s1.pose = s2.pose ∧
  s1.drawGroups = s2.drawGroups ∧
  s1.nextGroupId = s2.nextGroupId ∧
  s1.drawCommands = s2.drawCommands

/-- Return type of a method declared in `RenderDebugTyped.h`: the header
declares only `void`, `const physx::PxMat44 *`, and `int32_t` returns. -/
inductive RetType where
  | voidRet
  | constMat44PtrRet
  | int32Ret
deriving DecidableEq, BEq, Repr

/-- `true` exactly when a return type is `void` or a read-only pointer to
internally held state. -/
def voidOrConstPtr : RetType → Bool
  | .voidRet => true
  | .constMat44PtrRet => true
  | .int32Ret => false

/-- One method declaration of the C++ interface: name, parameter-type list
as written in the header, and return type. -/
structure MethodDecl where
  name : String
  params : List String
  ret : RetType
deriving DecidableEq, BEq, Repr

/-- Access level of a C++ class member. -/
inductive Access where
  | publicAccess
  | protectedAccess
  | privateAccess
deriving DecidableEq, BEq, Repr

/-- The public pure-virtual method declarations of `RenderDebugTyped`
(lines 66 to 426 of `RenderDebugTyped.h`), in declaration order. -/
def typedMethods : List MethodDecl :=
  [⟨"debugPolygon", ["uint32_t", "const PxVec3 *"], .voidRet⟩,
   ⟨"debugLine", ["const PxVec3 &", "const PxVec3 &"], .voidRet⟩,
   ⟨"debugGradientLine",
     ["const PxVec3 &", "const PxVec3 &", "const uint32_t &", "const uint32_t &"], .voidRet⟩,
   ⟨"debugRay", ["const PxVec3 &", "const PxVec3 &"], .voidRet⟩,
   ⟨"debugCylinder", ["const PxVec3 &", "const PxVec3 &", "float"], .voidRet⟩,
   ⟨"debugThickRay", ["const PxVec3 &", "const PxVec3 &", "float", "bool"], .voidRet⟩,
   ⟨"debugPlane", ["const PxPlane &", "float", "float"], .voidRet⟩,
   ⟨"debugTri", ["const PxVec3 &", "const PxVec3 &", "const PxVec3 &"], .voidRet⟩,
   ⟨"debugTriNormals",
     ["const PxVec3 &", "const PxVec3 &", "const PxVec3 &",
      "const PxVec3 &", "const PxVec3 &", "const PxVec3 &"], .voidRet⟩,
   ⟨"debugGradientTri",
     ["const PxVec3 &", "const PxVec3 &", "const PxVec3 &",
      "const uint32_t &", "const uint32_t &", "const uint32_t &"], .voidRet⟩,
   ⟨"debugGradientTriNormals",
     ["const PxVec3 &", "const PxVec3 &", "const PxVec3 &",
      "const PxVec3 &", "const PxVec3 &", "const PxVec3 &",
      "const uint32_t &", "const uint32_t &", "const uint32_t &"], .voidRet⟩,
   ⟨"debugBound", ["const PxBounds3 &"], .voidRet⟩,
   ⟨"debugSphere", ["const PxVec3 &", "float", "uint32_t"], .voidRet⟩,
   ⟨"debugCircle", ["const PxVec3 &", "float", "uint32_t"], .voidRet⟩,
   ⟨"debugPoint", ["const PxVec3 &", "float"], .voidRet⟩,
   ⟨"debugPoint", ["const PxVec3 &", "const PxVec3 &"], .voidRet⟩,
   ⟨"debugQuad", ["const PxVec3 &", "const PxVec2 &", "float"], .voidRet⟩,
   ⟨"debugAxes",
     ["const PxMat44 &", "float", "float", "bool", "bool", "uint32_t",
      "DebugAxesRenderMode::Enum"], .voidRet⟩,
   ⟨"debugArc",
     ["const PxVec3 &", "const PxVec3 &", "const PxVec3 &", "float", "bool"], .voidRet⟩,
   ⟨"debugThickArc",
     ["const PxVec3 &", "const PxVec3 &", "const PxVec3 &", "float", "bool"], .voidRet⟩,
   ⟨"debugText", ["const PxVec3 &", "const char *", "..."], .voidRet⟩,
   ⟨"setViewMatrix", ["const PxMat44 &"], .voidRet⟩,
   ⟨"setProjectionMatrix", ["const PxMat44 &"], .voidRet⟩,
   ⟨"getViewProjectionMatrixTyped", [], .constMat44PtrRet⟩,
   ⟨"getViewMatrixTyped", [], .constMat44PtrRet⟩,
   ⟨"getProjectionMatrixTyped", [], .constMat44PtrRet⟩,
   ⟨"eulerToQuat", ["const PxVec3 &", "PxQuat &"], .voidRet⟩,
   ⟨"rotationArc", ["const PxVec3 &", "const PxVec3 &", "PxMat44 &"], .voidRet⟩,
   ⟨"beginDrawGroup", ["const PxMat44 &"], .int32Ret⟩,
   ⟨"setDrawGroupPose", ["int32_t", "const PxMat44 &"], .voidRet⟩,
   ⟨"setPose", ["const PxMat44 &"], .voidRet⟩,
   ⟨"setPose", ["const PxTransform &"], .voidRet⟩,
   ⟨"setPosition", ["const PxVec3 &"], .voidRet⟩,
   ⟨"setOrientation", ["const PxQuat &"], .voidRet⟩,
   ⟨"getPoseTyped", [], .constMat44PtrRet⟩,
   ⟨"debugFrustum", ["const PxMat44 &", "const PxMat44 &"], .voidRet⟩]

/-- The base-class names re-exposed through `using RenderDebug::...`
declarations (lines 433 to 462 of `RenderDebugTyped.h`), in order. -/
def usingDeclarations : List String :=
  ["debugPolygon", "debugLine", "debugGradientLine", "debugRay",
   "debugCylinder", "debugThickRay", "debugPlane", "debugTri",
   "debugTriNormals", "debugGradientTri", "debugGradientTriNormals",
   "debugBound", "debugSphere", "debugCircle", "debugPoint", "debugQuad",
   "debugAxes", "debugArc", "debugThickArc", "debugText",
   "setViewMatrix", "setProjectionMatrix", "eulerToQuat", "rotationArc",
   "beginDrawGroup", "setDrawGroupPose", "setPose", "setPosition",
   "setOrientation", "debugFrustum"]

/-- A C++ abstract interface declaration: its public pure-virtual methods,
its using-declarations, and the access level of its destructor. -/
structure InterfaceDecl where
  className : String
  baseClassName : String
  methods : List MethodDecl
  usingDecls : List String
  destructorAccess : Access
deriving Repr

/-- The declaration of `class RenderDebugTyped : public RenderDebug` as it
stands in `RenderDebugTyped.h`: all methods public and pure virtual, the
using-declarations above, and a protected (virtual, empty) destructor. -/
def renderDebugTypedDecl : InterfaceDecl where
  className := "RenderDebugTyped"
  baseClassName := "RenderDebug"
  methods := typedMethods
  usingDecls := usingDeclarations
  destructorAccess := .protectedAccess

/-- `true` exactly when the string ends with the suffix `Typed`; the methods
so named (the four read accessors) are the ones whose name does not collide
with an untyped base-class method. -/
def endsWithTyped (s : String) : Bool :=
  s.data.reverse.take 5 == ['d', 'e', 'p', 'y', 'T']

end RENDER_DEBUG

open RENDER_DEBUG
open RENDER_DEBUG.RenderDebugTyped

/-- Claim C1: after `setViewMatrix V` and `setProjectionMatrix P` (in either
order, each the most recent call to its setter), the combined accessor
returns exactly the product `V * P`; the combined matrix is recomputed when
either setter is called again, and the view/projection accessors return the
most recently set matrices. -/
theorem viewProjection_is_product_of_latest (s : DebugState) (V P : PxMat44) :
    getViewProjectionMatrixTyped (setProjectionMatrix (setViewMatrix s V) P) = V.mul P ∧
    getViewProjectionMatrixTyped (setViewMatrix (setProjectionMatrix s P) V) = V.mul P ∧
    getViewMatrixTyped (setProjectionMatrix (setViewMatrix s V) P) = V ∧
    getProjectionMatrixTyped (setProjectionMatrix (setViewMatrix s V) P) = P ∧
    getViewMatrixTyped (setViewMatrix (setProjectionMatrix s P) V) = V ∧
    getProjectionMatrixTyped (setViewMatrix (setProjectionMatrix s P) V) = P ∧
    (∀ V2, getViewProjectionMatrixTyped
        (setViewMatrix (setProjectionMatrix (setViewMatrix s V) P) V2) = V2.mul P) ∧
    (∀ P2, getViewProjectionMatrixTyped
        (setProjectionMatrix (setProjectionMatrix (setViewMatrix s V) P) P2) = V.mul P2) :=
  ⟨rfl, rfl, rfl, rfl, rfl, rfl, fun _ => rfl, fun _ => rfl⟩

/-- Claim C2: `setPosition` changes only the translation component of the
pose returned by `getPoseTyped` (a previously set orientation survives), and
`setOrientation` changes only the orientation component (the position
survives). -/
theorem setPosition_setOrientation_independent (s : DebugState) (p : PxVec3) (q : PxQuat) :
    getPoseTyped (setPosition s p) = (getPoseTyped s).withTranslation p ∧
    (getPoseTyped (setPosition s p)).rotationBlock = (getPoseTyped s).rotationBlock ∧
    (getPoseTyped (setPosition s p)).translation = p ∧
    getPoseTyped (setOrientation s q) = (getPoseTyped s).withRotation (quatToMat33 q) ∧
    (getPoseTyped (setOrientation s q)).translation = (getPoseTyped s).translation ∧
    (getPoseTyped (setOrientation s q)).rotationBlock = quatToMat33 q ∧
    (getPoseTyped (setPosition (setOrientation s q) p)).rotationBlock = quatToMat33 q ∧
    (getPoseTyped (setOrientation (setPosition s p) q)).translation = p :=
  ⟨rfl, rfl, rfl, rfl, rfl, rfl, rfl, rfl⟩

/-- Claim C3: for every primitive-drawing operation, the typed overload
applied to typed arguments produces exactly the state transition of the
untyped base overload applied to the losslessly flattened numeric content:
the forwarded call is identical. -/
theorem typed_untyped_forwarded_call_identical :
    (∀ s n pts, RenderDebugTyped.debugPolygon s n pts
      = RenderDebug.debugPolygon s n (pts.map PxVec3.toRaw)) ∧
    (∀ s p1 p2, RenderDebugTyped.debugLine s p1 p2
      = RenderDebug.debugLine s p1.toRaw p2.toRaw) ∧
    (∀ s p1 p2 c1 c2, RenderDebugTyped.debugGradientLine s p1 p2 c1 c2
      = RenderDebug.debugGradientLine s p1.toRaw p2.toRaw c1 c2) ∧
    (∀ s p1 p2, RenderDebugTyped.debugRay s p1 p2
      = RenderDebug.debugRay s p1.toRaw p2.toRaw) ∧
    (∀ s p1 p2 r, RenderDebugTyped.debugCylinder s p1 p2 r
      = RenderDebug.debugCylinder s p1.toRaw p2.toRaw r) ∧
    (∀ s p1 p2 rs tip, RenderDebugTyped.debugThickRay s p1 p2 rs tip
      = RenderDebug.debugThickRay s p1.toRaw p2.toRaw rs tip) ∧
    (∀ s pl r1 r2, RenderDebugTyped.debugPlane s pl r1 r2
      = RenderDebug.debugPlane s pl.toRaw r1 r2) ∧
    (∀ s p1 p2 p3, RenderDebugTyped.debugTri s p1 p2 p3
      = RenderDebug.debugTri s p1.toRaw p2.toRaw p3.toRaw) ∧
    (∀ s p1 p2 p3 n1 n2 n3, RenderDebugTyped.debugTriNormals s p1 p2 p3 n1 n2 n3
      = RenderDebug.debugTriNormals s p1.toRaw p2.toRaw p3.toRaw n1.toRaw n2.toRaw n3.toRaw) ∧
    (∀ s p1 p2 p3 c1 c2 c3, RenderDebugTyped.debugGradientTri s p1 p2 p3 c1 c2 c3
      = RenderDebug.debugGradientTri s p1.toRaw p2.toRaw p3.toRaw c1 c2 c3) ∧
    (∀ s p1 p2 p3 n1 n2 n3 c1 c2 c3,
      RenderDebugTyped.debugGradientTriNormals s p1 p2 p3 n1 n2 n3 c1 c2 c3
      = RenderDebug.debugGradientTriNormals s p1.toRaw p2.toRaw p3.toRaw
          n1.toRaw n2.toRaw n3.toRaw c1 c2 c3) ∧
    (∀ s b, RenderDebugTyped.debugBound s b
      = RenderDebug.debugBound s b.minimum.toRaw b.maximum.toRaw) ∧
    (∀ s p r sub, RenderDebugTyped.debugSphere s p r sub
      = RenderDebug.debugSphere s p.toRaw r sub) ∧
    (∀ s c r sub, RenderDebugTyped.debugCircle s c r sub
      = RenderDebug.debugCircle s c.toRaw r sub) ∧
    (∀ s p r, RenderDebugTyped.debugPoint s p r
      = RenderDebug.debugPoint s p.toRaw r) ∧
    (∀ s p sc, RenderDebugTyped.debugPointScale s p sc
      = RenderDebug.debugPointScale s p.toRaw sc.toRaw) ∧
    (∀ s p sc o, RenderDebugTyped.debugQuad s p sc o
      = RenderDebug.debugQuad s p.toRaw sc.x sc.y o) ∧
    (∀ s t d b x r a m, RenderDebugTyped.debugAxes s t d b x r a m
      = RenderDebug.debugAxes s t.toRaw d b x r a m) ∧
    (∀ s c p1 p2 a root, RenderDebugTyped.debugArc s c p1 p2 a root
      = RenderDebug.debugArc s c.toRaw p1.toRaw p2.toRaw a root) ∧
    (∀ s c p1 p2 th root, RenderDebugTyped.debugThickArc s c p1 p2 th root
      = RenderDebug.debugThickArc s c.toRaw p1.toRaw p2.toRaw th root) ∧
    (∀ s p str, RenderDebugTyped.debugText s p str
      = RenderDebug.debugText s p.toRaw str) ∧
    (∀ s v p, RenderDebugTyped.debugFrustum s v p
      = RenderDebug.debugFrustum s v.toRaw p.toRaw) := by
  refine ⟨?_, ?_, ?_, ?_, ?_, ?_, ?_, ?_, ?_, ?_, ?_,
          ?_, ?_, ?_, ?_, ?_, ?_, ?_, ?_, ?_, ?_, ?_⟩ <;> intros <;> rfl

/-- Claim C4: updating the pose of the draw group just returned by
`beginDrawGroup` registers the new anchor pose under that identifier and
leaves the anchor pose of every other draw group unchanged. -/
theorem setDrawGroupPose_updates_only_target (s : DebugState)
    (basePose newPose : PxMat44) (otherId : ℤ)
    (h : otherId ≠ (beginDrawGroup s basePose).2) :
    getDrawGroupPose
      (setDrawGroupPose (beginDrawGroup s basePose).1 (beginDrawGroup s basePose).2 newPose)
      (beginDrawGroup s basePose).2 = some newPose ∧
    getDrawGroupPose
      (setDrawGroupPose (beginDrawGroup s basePose).1 (beginDrawGroup s basePose).2 newPose)
      otherId
    = getDrawGroupPose (beginDrawGroup s basePose).1 otherId := by
  constructor
  · simp [beginDrawGroup, setDrawGroupPose, getDrawGroupPose]
  · simp [beginDrawGroup] at h
    simp [beginDrawGroup, setDrawGroupPose, getDrawGroupPose, h]

/-- Witness for claim C4 at a concrete state: the group created from the
initial state, updated to the identity pose, with `5` as the other
identifier. -/
theorem setDrawGroupPose_updates_only_target_witness :
    getDrawGroupPose
      (setDrawGroupPose (beginDrawGroup DebugState.init PxMat44.identity).1
        (beginDrawGroup DebugState.init PxMat44.identity).2 PxMat44.identity)
      (beginDrawGroup DebugState.init PxMat44.identity).2 = some PxMat44.identity ∧
    getDrawGroupPose
      (setDrawGroupPose (beginDrawGroup DebugState.init PxMat44.identity).1
        (beginDrawGroup DebugState.init PxMat44.identity).2 PxMat44.identity)
      5
    = getDrawGroupPose (beginDrawGroup DebugState.init PxMat44.identity).1 5 :=
  setDrawGroupPose_updates_only_target DebugState.init PxMat44.identity PxMat44.identity 5
    (by decide)

/-- Claim C5: `beginDrawGroup` returns a non-negative identifier and
registers a new draw group anchored at the given base pose under that
identifier. -/
theorem beginDrawGroup_nonneg_and_registers (s : DebugState) (pose : PxMat44) :
    0 ≤ (beginDrawGroup s pose).2 ∧
    getDrawGroupPose (beginDrawGroup s pose).1 (beginDrawGroup s pose).2 = some pose := by
  constructor
  · exact Int.natCast_nonneg s.nextGroupId
  · simp [beginDrawGroup, getDrawGroupPose]

/-- Counterexample to claim C6 as stated: `beginDrawGroup` (line 375 of the
header) returns `int32_t`, which is neither `void` nor a read-only pointer
to internally held state. -/
theorem not_every_method_void_or_const_ptr :
    typedMethods.all (fun m => voidOrConstPtr m.ret) = false ∧
    (typedMethods.filter (fun m => m.name == "beginDrawGroup")).map MethodDecl.ret
      = [RetType.int32Ret] := by
  decide

/-- Claim C6 as amended: no method of the interface declares an error
condition or failure semantics; every method returns `void` or a read-only
pointer to internally held state, except `beginDrawGroup`, which returns an
`int32_t` draw-group identifier. -/
theorem every_method_void_const_ptr_or_group_id :
    typedMethods.all
      (fun m => voidOrConstPtr m.ret
        || (m.name == "beginDrawGroup" && m.ret == RetType.int32Ret)) = true := by
  decide

/-- Claim C7: every primitive-drawing operation only appends its forwarded
draw command to the command stream, returning nothing, and leaves the view
matrix, projection matrix, combined view-projection matrix, and global pose
unchanged. -/
theorem draw_ops_append_only (s : DebugState) (op : Op) (c : FwdCall)
    (h : fwdOf op = some c) :
    step s op = { s with drawCommands := s.drawCommands ++ [c] } ∧
    getViewMatrixTyped (step s op) = getViewMatrixTyped s ∧
    getProjectionMatrixTyped (step s op) = getProjectionMatrixTyped s ∧
    getViewProjectionMatrixTyped (step s op) = getViewProjectionMatrixTyped s ∧
    getPoseTyped (step s op) = getPoseTyped s := by
  cases op <;>
    simp_all [fwdOf, step, DebugState.emit,
      RenderDebugTyped.debugPolygon, RenderDebugTyped.debugLine,
      RenderDebugTyped.debugGradientLine, RenderDebugTyped.debugRay,
      RenderDebugTyped.debugCylinder, RenderDebugTyped.debugThickRay,
      RenderDebugTyped.debugPlane, RenderDebugTyped.debugTri,
      RenderDebugTyped.debugTriNormals, RenderDebugTyped.debugGradientTri,
      RenderDebugTyped.debugGradientTriNormals, RenderDebugTyped.debugBound,
      RenderDebugTyped.debugSphere, RenderDebugTyped.debugCircle,
      RenderDebugTyped.debugPoint, RenderDebugTyped.debugPointScale,
      RenderDebugTyped.debugQuad, RenderDebugTyped.debugAxes,
      RenderDebugTyped.debugArc, RenderDebugTyped.debugThickArc,
      RenderDebugTyped.debugText, RenderDebugTyped.debugFrustum,
      getViewMatrixTyped, getProjectionMatrixTyped,
      getViewProjectionMatrixTyped, getPoseTyped]

/-- Witness for claim C7: a concrete `debugLine` call from the initial state
appends exactly its forwarded line command. -/
theorem draw_ops_append_only_witness :
    step DebugState.init (Op.debugLine ⟨0, 0, 0⟩ ⟨1, 2, 3⟩)
      = { DebugState.init with
          drawCommands := DebugState.init.drawCommands ++ [FwdCall.line (0, 0, 0) (1, 2, 3)] } ∧
    getViewMatrixTyped (step DebugState.init (Op.debugLine ⟨0, 0, 0⟩ ⟨1, 2, 3⟩))
      = getViewMatrixTyped DebugState.init ∧
    getProjectionMatrixTyped (step DebugState.init (Op.debugLine ⟨0, 0, 0⟩ ⟨1, 2, 3⟩))
      = getProjectionMatrixTyped DebugState.init ∧
    getViewProjectionMatrixTyped (step DebugState.init (Op.debugLine ⟨0, 0, 0⟩ ⟨1, 2, 3⟩))
      = getViewProjectionMatrixTyped DebugState.init ∧
    getPoseTyped (step DebugState.init (Op.debugLine ⟨0, 0, 0⟩ ⟨1, 2, 3⟩))
      = getPoseTyped DebugState.init :=
  draw_ops_append_only DebugState.init (Op.debugLine ⟨0, 0, 0⟩ ⟨1, 2, 3⟩)
    (FwdCall.line (0, 0, 0) (1, 2, 3)) rfl

/-- Claim C8: the typed façade does not shadow the untyped base overloads —
every method whose name is shared with the base interface (all methods except
the `...Typed` read accessors) is re-exposed by a using-declaration — and
the two typed `debugPoint` overloads have distinct parameter lists, so they
do not collide in overload resolution. -/
theorem overload_sets_simultaneously_callable :
    renderDebugTypedDecl.methods.all
      (fun m => endsWithTyped m.name || renderDebugTypedDecl.usingDecls.contains m.name)
      = true ∧
    ((renderDebugTypedDecl.methods.filter (fun m => m.name == "debugPoint")).map
        MethodDecl.params).Pairwise (fun a b => a ≠ b) ∧
    (renderDebugTypedDecl.methods.filter (fun m => m.name == "debugPoint")).length = 2 := by
  refine ⟨by decide, by decide, by decide⟩

/-- Helper: a single step of any operation preserves agreement of two states
that differ only in the local-only view/projection matrix state. -/
theorem step_viewProjAgnostic (s1 s2 : DebugState) (op : Op)
    (h : viewProjAgnosticEq s1 s2) :
    viewProjAgnosticEq (step s1 op) (step s2 op) := by
  obtain ⟨hp, hg, hn, hd⟩ := h
  cases op <;>
    simp [step, viewProjAgnosticEq, DebugState.emit,
      RenderDebugTyped.debugPolygon, RenderDebugTyped.debugLine,
      RenderDebugTyped.debugGradientLine, RenderDebugTyped.debugRay,
      RenderDebugTyped.debugCylinder, RenderDebugTyped.debugThickRay,
      RenderDebugTyped.debugPlane, RenderDebugTyped.debugTri,
      RenderDebugTyped.debugTriNormals, RenderDebugTyped.debugGradientTri,
      RenderDebugTyped.debugGradientTriNormals, RenderDebugTyped.debugBound,
      RenderDebugTyped.debugSphere, RenderDebugTyped.debugCircle,
      RenderDebugTyped.debugPoint, RenderDebugTyped.debugPointScale,
      RenderDebugTyped.debugQuad, RenderDebugTyped.debugAxes,
      RenderDebugTyped.debugArc, RenderDebugTyped.debugThickArc,
      RenderDebugTyped.debugText, RenderDebugTyped.debugFrustum,
      RenderDebugTyped.setViewMatrix, RenderDebugTyped.setProjectionMatrix,
      RenderDebugTyped.beginDrawGroup, RenderDebugTyped.setDrawGroupPose,
      RenderDebugTyped.setPose, RenderDebugTyped.setPoseTransform,
      RenderDebugTyped.setPosition, RenderDebugTyped.setOrientation,
      hp, hg, hn, hd]

/-- Helper: running any operation sequence preserves agreement of two states
that differ only in the local-only view/projection matrix state. -/
theorem run_viewProjAgnostic (ops : List Op) (s1 s2 : DebugState)
    (h : viewProjAgnosticEq s1 s2) :
    viewProjAgnosticEq (run s1 ops) (run s2 ops) := by
  induction ops generalizing s1 s2 with
  | nil => exact h
  | cons op rest ih => exact ih (step s1 op) (step s2 op) (step_viewProjAgnostic s1 s2 op h)

/-- Claim C9: the view and projection matrices are stored for local use only
and never transmitted: the setters emit nothing to the remote stream, and the
remotely transmitted output of any subsequent operation sequence is identical
no matter which matrices were passed to `setViewMatrix` and
`setProjectionMatrix`. -/
theorem view_projection_not_remotely_transmitted (s : DebugState)
    (V1 V2 P1 P2 : PxMat44) (ops : List Op) :
    remoteOutput (setViewMatrix s V1) = remoteOutput s ∧
    remoteOutput (setProjectionMatrix s P1) = remoteOutput s ∧
    remoteOutput (run (setProjectionMatrix (setViewMatrix s V1) P1) ops)
      = remoteOutput (run (setProjectionMatrix (setViewMatrix s V2) P2) ops) := by
  refine ⟨rfl, rfl, ?_⟩
  have h : viewProjAgnosticEq (setProjectionMatrix (setViewMatrix s V1) P1)
      (setProjectionMatrix (setViewMatrix s V2) P2) := ⟨rfl, rfl, rfl, rfl⟩
  exact (run_viewProjAgnostic ops _ _ h).2.2.2

/-- Claim C10: the destructor of `RenderDebugTyped` is protected, and no
public operation of the interface is a destructor or other lifetime-ending
call, so a caller cannot destroy the object through this interface. -/
theorem destructor_protected_lifetime_managed :
    renderDebugTypedDecl.destructorAccess = Access.protectedAccess ∧
    renderDebugTypedDecl.methods.all
      (fun m => !(m.name == "~RenderDebugTyped" || m.name == "release"
        || m.name == "destroy")) = true := by
  decide
